import Mathlib

/-
Verification of `embedded-hal-bus/src/i2c/critical_section.rs`:
the `CriticalSectionDevice` shared-bus I2C wrapper.

The Rust source is embedded shallowly:

* A transport (`T: I2c`) is a record of four pure state-transition
  functions over an abstract transport state `σ` and a transport-defined
  error type `E`.  Rust's `Result<(), T::Error>` is modelled as
  `Option E` (`none` = `Ok(())`); Rust's in-place mutable buffers are
  modelled by returning the final buffer contents.
* The shared container `Mutex<RefCell<T>>` is modelled by `Shared σ`:
  the transport state plus the `RefCell` borrow flag.
* Each device operation is a pure function that also emits the list of
  observable events (critical-section entry/exit, `RefCell` borrow and
  release, and the single forwarded transport call with its arguments),
  so that temporal claims about the source can be stated on the trace.
* A second, small-step concurrent model (`Step`/`Reachable`) runs several
  execution contexts against one shared container; the critical-section
  primitive's global-exclusion guarantee is the `holder`-based side
  condition of the step rules, and the per-operation phase machine
  (enter / forwarded call / exit) is the statement sequence of the source.
-/

namespace EmbeddedHalBus

/-- Bytes and seven-bit bus addresses are `u8` values in the source. -/
abbrev Byte := Fin 256

/-- One sub-operation of an I2C transaction
(`embedded_hal::i2c::Operation`): `Read(&mut [u8])` or `Write(&[u8])`. -/
inductive Operation where
  | read (buf : List Byte)
  | write (buf : List Byte)
deriving DecidableEq, Repr

/-- A transport implementing the `embedded_hal::i2c::I2c` trait, over
transport state `σ` and transport-defined error type `E`.  Each method
returns the new transport state, the final contents of any caller
buffers it may fill (possibly only partially written on error), and
`none` for `Ok(())` or `some e` for `Err(e)`. -/
structure I2c (σ E : Type) where
  read : σ → Byte → List Byte → σ × List Byte × Option E
  write : σ → Byte → List Byte → σ × Option E
  write_read : σ → Byte → List Byte → List Byte → σ × List Byte × Option E
  transaction : σ → Byte → List Operation → σ × List Operation × Option E

/-- The shared container `Mutex<RefCell<T>>`: the wrapped transport state
plus the `RefCell` mutable-borrow flag. -/
structure Shared (σ : Type) where
  busState : σ
  borrowed : Bool
deriving DecidableEq, Repr

/-- Description of one forwarded transport call, recording exactly the
arguments passed to the transport. -/
inductive CallDesc where
  | read (address : Byte) (buf : List Byte)
  | write (address : Byte) (buf : List Byte)
  | write_read (address : Byte) (wbuf rbuf : List Byte)
  | transaction (address : Byte) (ops : List Operation)
deriving DecidableEq, Repr

/-- Observable events of one device operation: critical-section entry and
exit, `RefCell` borrow and release, and the forwarded transport call. -/
inductive Event where
  | csEnter
  | borrow
  | call (d : CallDesc)
  | release
  | csExit
deriving DecidableEq, Repr

/-- Whether an event is a forwarded transport call. -/
def Event.isCall : Event → Bool
  | .call _ => true
  | _ => false

/-- The handle: `struct CriticalSectionDevice<'a, T> { bus: &'a Mutex<RefCell<T>> }`.
Its only field is the (non-owning) reference to the shared container,
modelled as an opaque identifier; the referenced container's state is
passed to each operation explicitly. -/
structure CriticalSectionDevice where
  bus : Nat
deriving DecidableEq, Repr

/-- What one device operation returns: the handle after the call
(`&mut self` — returned so statelessness is provable), the shared
container afterwards, the final contents of the caller's mutable
buffer(s) (`α`), the outcome, and the emitted event trace. -/
structure OpResult (α σ E : Type) where
  device : CriticalSectionDevice
  shared : Shared σ
  out : α
  outcome : Option E ⊕ Unit
  events : List Event
deriving Repr

/-- Outcome of a normal return carrying the Rust `Result<(), E>`. -/
def ret {E : Type} (r : Option E) : Option E ⊕ Unit := Sum.inl r

/-- Outcome of a `BorrowMutError` panic from `borrow_ref_mut`. -/
def panicOutcome {E : Type} : Option E ⊕ Unit := Sum.inr ()

/--
`fn read(&mut self, address: u8, read: &mut [u8])`:
`critical_section::with(|cs| { let bus = &mut *self.bus.borrow_ref_mut(cs); bus.read(address, read) })`.
If the `RefCell` is already mutably borrowed, `borrow_ref_mut` panics and
the transport is never called; otherwise the call is forwarded unchanged
inside the critical section.
-/
def CriticalSectionDevice.read {σ E : Type} (T : I2c σ E)
    (self : CriticalSectionDevice) (s : Shared σ) (address : Byte)
    (buf : List Byte) : OpResult (List Byte) σ E :=
  if s.borrowed then
    { device := self, shared := s, out := buf, outcome := panicOutcome,
      events := [.csEnter] }
  else
    let r := T.read s.busState address buf
    { device := self, shared := { busState := r.1, borrowed := false },
      out := r.2.1, outcome := ret r.2.2,
      events := [.csEnter, .borrow, .call (.read address buf), .release, .csExit] }

/--
`fn write(&mut self, address: u8, write: &[u8])`: same shape as `read`,
forwarding to `bus.write(address, write)` inside the critical section.
-/
def CriticalSectionDevice.write {σ E : Type} (T : I2c σ E)
    (self : CriticalSectionDevice) (s : Shared σ) (address : Byte)
    (buf : List Byte) : OpResult Unit σ E :=
  if s.borrowed then
    { device := self, shared := s, out := (), outcome := panicOutcome,
      events := [.csEnter] }
  else
    let r := T.write s.busState address buf
    { device := self, shared := { busState := r.1, borrowed := false },
      out := (), outcome := ret r.2,
      events := [.csEnter, .borrow, .call (.write address buf), .release, .csExit] }

/--
`fn write_read(&mut self, address: u8, write: &[u8], read: &mut [u8])`:
forwards to `bus.write_read(address, write, read)` inside the critical
section.
-/
def CriticalSectionDevice.write_read {σ E : Type} (T : I2c σ E)
    (self : CriticalSectionDevice) (s : Shared σ) (address : Byte)
    (wbuf rbuf : List Byte) : OpResult (List Byte) σ E :=
  if s.borrowed then
    { device := self, shared := s, out := rbuf, outcome := panicOutcome,
      events := [.csEnter] }
  else
    let r := T.write_read s.busState address wbuf rbuf
    { device := self, shared := { busState := r.1, borrowed := false },
      out := r.2.1, outcome := ret r.2.2,
      events := [.csEnter, .borrow, .call (.write_read address wbuf rbuf),
                 .release, .csExit] }

/--
`fn transaction(&mut self, address: u8, operations: &mut [Operation])`:
forwards to `bus.transaction(address, operations)` inside the critical
section.
-/
def CriticalSectionDevice.transaction {σ E : Type} (T : I2c σ E)
    (self : CriticalSectionDevice) (s : Shared σ) (address : Byte)
    (ops : List Operation) : OpResult (List Operation) σ E :=
  if s.borrowed then
    { device := self, shared := s, out := ops, outcome := panicOutcome,
      events := [.csEnter] }
  else
    let r := T.transaction s.busState address ops
    { device := self, shared := { busState := r.1, borrowed := false },
      out := r.2.1, outcome := ret r.2.2,
      events := [.csEnter, .borrow, .call (.transaction address ops),
                 .release, .csExit] }

/-- The associated type binding `type Error = T::Error` of the
`ErrorType` impl for `CriticalSectionDevice`: the error type the handle
exposes is the transport's own error type. -/
def CriticalSectionDevice.Error (σ E : Type) (_T : I2c σ E) : Type := E

/-- Dropping a handle.  The source declares no `Drop` impl and the
struct holds only a shared reference, so Rust's drop glue does nothing
to the shared container. -/
def CriticalSectionDevice.dropHandle {σ : Type} (_self : CriticalSectionDevice)
    (s : Shared σ) : Shared σ := s

/-! ### Concurrent small-step model

Several execution contexts (threads or interrupt handlers, all holding
handles to the same shared container) each run a straight-line program
of device operations.  One device operation is the statement sequence of
the source: enter the critical section, forward one transport call,
leave the critical section.  The `critical-section` primitive's contract
(global exclusion, including interrupt context) is the `holder` side
condition: a context may enter only when nobody holds the critical
section, and only the holder may run its forwarded call and leave. -/

/-- One device operation a context asks its handle to perform. -/
inductive DevOp where
  | read (address : Byte) (buf : List Byte)
  | write (address : Byte) (buf : List Byte)
  | write_read (address : Byte) (wbuf rbuf : List Byte)
  | transaction (address : Byte) (ops : List Operation)
deriving DecidableEq, Repr

/-- The arguments a device operation forwards to the transport. -/
def DevOp.desc : DevOp → CallDesc
  | .read a b => .read a b
  | .write a b => .write a b
  | .write_read a w r => .write_read a w r
  | .transaction a o => .transaction a o

/-- The transport-state effect of forwarding one device operation. -/
def DevOp.run {σ E : Type} (T : I2c σ E) (s : σ) : DevOp → σ
  | .read a b => (T.read s a b).1
  | .write a b => (T.write s a b).1
  | .write_read a w r => (T.write_read s a w r).1
  | .transaction a o => (T.transaction s a o).1

/-- How far a context has progressed through its current device
operation: not inside one, inside the critical section before the
forwarded transport call, or inside it after the call returned. -/
inductive Phase where
  | idle
  | inCS
  | called
deriving DecidableEq, Repr

/-- One execution context: its remaining program and its phase. -/
structure CtxState where
  prog : List DevOp
  phase : Phase
deriving DecidableEq, Repr

/-- A configuration of the concurrent system: the contexts, which
context (if any) currently holds the critical section, the shared
transport state, and the trace of events so far, each tagged with the
context that produced it. -/
structure Config (σ : Type) where
  ctxs : List CtxState
  holder : Option Nat
  busState : σ
  trace : List (Nat × Event)

/-- The interleaving semantics.  A scheduler may pick any context at any
time, except that entering the critical section requires it to be free
(`critical_section::with` guarantees global exclusion: while one context
is inside, no other context — interrupt handlers included — runs a
protected region), and the forwarded call and the exit are performed by
the holder. -/
inductive Step {σ E : Type} (T : I2c σ E) : Config σ → Config σ → Prop where
  | enter (c : Config σ) (i : Nat) (op : DevOp) (rest : List DevOp)
      (hh : c.holder = none)
      (hc : c.ctxs[i]? = some ⟨op :: rest, .idle⟩) :
      Step T c { ctxs := c.ctxs.set i ⟨op :: rest, .inCS⟩,
                 holder := some i,
                 busState := c.busState,
                 trace := c.trace ++ [(i, .csEnter)] }
  | call (c : Config σ) (i : Nat) (op : DevOp) (rest : List DevOp)
      (hh : c.holder = some i)
      (hc : c.ctxs[i]? = some ⟨op :: rest, .inCS⟩) :
      Step T c { ctxs := c.ctxs.set i ⟨op :: rest, .called⟩,
                 holder := some i,
                 busState := op.run T c.busState,
                 trace := c.trace ++ [(i, .call op.desc)] }
  | leave (c : Config σ) (i : Nat) (op : DevOp) (rest : List DevOp)
      (hh : c.holder = some i)
      (hc : c.ctxs[i]? = some ⟨op :: rest, .called⟩) :
      Step T c { ctxs := c.ctxs.set i ⟨rest, .idle⟩,
                 holder := none,
                 busState := c.busState,
                 trace := c.trace ++ [(i, .csExit)] }

/-- Configurations reachable by interleaved execution. -/
def Reachable {σ E : Type} (T : I2c σ E) : Config σ → Config σ → Prop :=
  Relation.ReflTransGen (Step T)

/-- The starting configuration: every context still has its whole
program to run, nobody is in the critical section, and the trace is
empty. -/
def startConfig {σ : Type} (progs : List (List DevOp)) (s₀ : σ) : Config σ :=
  { ctxs := progs.map (fun p => ⟨p, .idle⟩),
    holder := none,
    busState := s₀,
    trace := [] }

/-- A trace that is a concatenation of complete per-operation blocks,
each block consisting of one context's critical-section entry, its
forwarded transport call, and its critical-section exit, with no event
of any other context in between. -/
inductive CompleteBlocks : List (Nat × Event) → Prop where
  | nil : CompleteBlocks []
  | block (tr : List (Nat × Event)) (i : Nat) (d : CallDesc) :
      CompleteBlocks tr →
      CompleteBlocks (tr ++ [(i, .csEnter), (i, .call d), (i, .csExit)])

/-- The shape of the still-open tail of a trace: empty, or the first one
or two events of the block of the single operation in progress. -/
def TailShape (rest : List (Nat × Event)) : Prop :=
  rest = [] ∨ (∃ i, rest = [(i, .csEnter)]) ∨
    (∃ i d, rest = [(i, .csEnter), (i, .call d)])

/-- A trace is well-blocked when it is a concatenation of complete
single-operation blocks followed by at most one open block: operations
never interleave in the trace. -/
def WellBlocked (tr : List (Nat × Event)) : Prop :=
  ∃ blocks rest, tr = blocks ++ rest ∧ CompleteBlocks blocks ∧ TailShape rest

/-- The inductive invariant of the concurrent system: either nobody
holds the critical section, every context is idle and the trace is a
concatenation of complete blocks; or exactly one context holds it, all
others are idle, and the trace ends with that context's open block,
matching its phase. -/
def Inv {σ : Type} (c : Config σ) : Prop :=
  (c.holder = none ∧
    (∀ (j : Nat) (x : CtxState), c.ctxs[j]? = some x → x.phase = .idle) ∧
    CompleteBlocks c.trace) ∨
  (∃ i ctx, c.holder = some i ∧ c.ctxs[i]? = some ctx ∧
    (∀ (j : Nat) (x : CtxState), j ≠ i → c.ctxs[j]? = some x → x.phase = .idle) ∧
    ((ctx.phase = .inCS ∧
        ∃ tr, CompleteBlocks tr ∧ c.trace = tr ++ [(i, .csEnter)]) ∨
     (ctx.phase = .called ∧
        ∃ tr d, CompleteBlocks tr ∧
          c.trace = tr ++ [(i, .csEnter), (i, .call d)])))

/-! ### A concrete transport stub, used to instantiate the theorems

It counts calls in its state and fails with error `7` at address `0x50`,
as in the spec's pass-through example. -/

/-- The stub transport's error verdict for an address: error `7` at
address `0x50`, success elsewhere. -/
def stubErr (a : Byte) : Option Nat := if a = (0x50 : Byte) then some 7 else none

/-- The stub's four methods: bump the call counter, fill read buffers
with the address byte, fail exactly when `stubErr` says so. -/
def stubBus : I2c Nat Nat where
  read := fun s a b => (s + 1, b.map (fun _ => a), stubErr a)
  write := fun s a _b => (s + 1, stubErr a)
  write_read := fun s a _w r => (s + 1, r.map (fun _ => a), stubErr a)
  transaction := fun s a ops => (s + 1, ops, stubErr a)

/-! ### Claims about the sequential behaviour of one operation -/

/-- C1: Pass-through fidelity.  For every operation (read, write,
write_read, transaction), every address and every buffer contents, the
result returned to the caller is exactly the result the underlying
transport returns for that same call — in particular a transport error
is returned unchanged. -/
theorem ops_pass_through {σ E : Type} (T : I2c σ E)
    (d : CriticalSectionDevice) (s : Shared σ) (a : Byte)
    (b w r : List Byte) (ops : List Operation) (h : s.borrowed = false) :
    (CriticalSectionDevice.read T d s a b).outcome
        = ret (T.read s.busState a b).2.2 ∧
    (CriticalSectionDevice.write T d s a w).outcome
        = ret (T.write s.busState a w).2 ∧
    (CriticalSectionDevice.write_read T d s a w r).outcome
        = ret (T.write_read s.busState a w r).2.2 ∧
    (CriticalSectionDevice.transaction T d s a ops).outcome
        = ret (T.transaction s.busState a ops).2.2 := by
  refine ⟨?_, ?_, ?_, ?_⟩ <;>
    simp [CriticalSectionDevice.read, CriticalSectionDevice.write,
      CriticalSectionDevice.write_read, CriticalSectionDevice.transaction, h]

/-- Witness for C1 at the spec's own example: a stub that fails with
error `7` at address `0x50`; the handle returns exactly that error. -/
theorem ops_pass_through_witness :
    (Shared.mk (0 : Nat) false).borrowed = false ∧
    ((CriticalSectionDevice.read stubBus ⟨0⟩ ⟨0, false⟩ 0x50 [0]).outcome
        = ret (stubBus.read 0 0x50 [0]).2.2 ∧
     (CriticalSectionDevice.write stubBus ⟨0⟩ ⟨0, false⟩ 0x50 [1]).outcome
        = ret (stubBus.write 0 0x50 [1]).2 ∧
     (CriticalSectionDevice.write_read stubBus ⟨0⟩ ⟨0, false⟩ 0x50 [1] [0, 0]).outcome
        = ret (stubBus.write_read 0 0x50 [1] [0, 0]).2.2 ∧
     (CriticalSectionDevice.transaction stubBus ⟨0⟩ ⟨0, false⟩ 0x50 []).outcome
        = ret (stubBus.transaction 0 0x50 []).2.2) :=
  ⟨rfl, ops_pass_through stubBus ⟨0⟩ ⟨0, false⟩ 0x50 [0] [1] [0, 0] [] rfl⟩

/-- C4: Error-type identity.  The error type the handle exposes is
definitionally the transport's own error type (`type Error = T::Error`),
and an error value produced by the transport is returned to the caller
without wrapping or translation. -/
theorem error_type_identity {σ E : Type} (T : I2c σ E) :
    CriticalSectionDevice.Error σ E T = E ∧
    (∀ (d : CriticalSectionDevice) (s : Shared σ) (a : Byte)
        (b : List Byte) (e : E), s.borrowed = false →
      (T.read s.busState a b).2.2 = some e →
      (CriticalSectionDevice.read T d s a b).outcome = ret (some e)) := by
  refine ⟨rfl, ?_⟩
  intro d s a b e h he
  simp [CriticalSectionDevice.read, h, he]

/-- Witness for C4: the stub's error `7` at address `0x50` comes back
verbatim through the handle. -/
theorem error_type_identity_witness :
    (Shared.mk (0 : Nat) false).borrowed = false ∧
    (stubBus.read 0 0x50 [0]).2.2 = some 7 ∧
    (CriticalSectionDevice.read stubBus ⟨0⟩ ⟨0, false⟩ 0x50 [0]).outcome
      = ret (some 7) :=
  ⟨rfl, by decide,
    (error_type_identity stubBus).2 ⟨0⟩ ⟨0, false⟩ 0x50 [0] 7 rfl (by decide)⟩

/-- C5: Argument forwarding.  For every operation the address and the
buffers (write data, read destinations, and the ordered sub-operation
sequence for transaction) appear in the single forwarded transport call
exactly as the caller passed them. -/
theorem args_forwarded_unchanged {σ E : Type} (T : I2c σ E)
    (d : CriticalSectionDevice) (s : Shared σ) (a : Byte)
    (b w r : List Byte) (ops : List Operation) (h : s.borrowed = false) :
    (CriticalSectionDevice.read T d s a b).events
        = [.csEnter, .borrow, .call (.read a b), .release, .csExit] ∧
    (CriticalSectionDevice.write T d s a w).events
        = [.csEnter, .borrow, .call (.write a w), .release, .csExit] ∧
    (CriticalSectionDevice.write_read T d s a w r).events
        = [.csEnter, .borrow, .call (.write_read a w r), .release, .csExit] ∧
    (CriticalSectionDevice.transaction T d s a ops).events
        = [.csEnter, .borrow, .call (.transaction a ops), .release, .csExit] := by
  refine ⟨?_, ?_, ?_, ?_⟩ <;>
    simp [CriticalSectionDevice.read, CriticalSectionDevice.write,
      CriticalSectionDevice.write_read, CriticalSectionDevice.transaction, h]

/-- Witness for C5 at concrete arguments. -/
theorem args_forwarded_unchanged_witness :
    (Shared.mk (0 : Nat) false).borrowed = false ∧
    ((CriticalSectionDevice.read stubBus ⟨0⟩ ⟨0, false⟩ 0x42 [0]).events
        = [.csEnter, .borrow, .call (.read 0x42 [0]), .release, .csExit] ∧
     (CriticalSectionDevice.write stubBus ⟨0⟩ ⟨0, false⟩ 0x42 [1]).events
        = [.csEnter, .borrow, .call (.write 0x42 [1]), .release, .csExit] ∧
     (CriticalSectionDevice.write_read stubBus ⟨0⟩ ⟨0, false⟩ 0x42 [1] [0, 0]).events
        = [.csEnter, .borrow, .call (.write_read 0x42 [1] [0, 0]), .release, .csExit] ∧
     (CriticalSectionDevice.transaction stubBus ⟨0⟩ ⟨0, false⟩ 0x42
          [.write [1], .read [0, 0]]).events
        = [.csEnter, .borrow, .call (.transaction 0x42 [.write [1], .read [0, 0]]),
           .release, .csExit]) :=
  ⟨rfl, args_forwarded_unchanged stubBus ⟨0⟩ ⟨0, false⟩ 0x42 [0] [1] [0, 0]
      [.write [1], .read [0, 0]] rfl⟩

/-- C6: Zero local recovery.  Each operation makes exactly one transport
call (no retry, no second call, no rollback): the trace holds a single
call event, the final transport state and the caller's buffers are
exactly what that one call left, and the result is returned verbatim. -/
theorem single_transport_call_no_retry {σ E : Type} (T : I2c σ E)
    (d : CriticalSectionDevice) (s : Shared σ) (a : Byte)
    (b w r : List Byte) (ops : List Operation) (h : s.borrowed = false) :
    ((CriticalSectionDevice.read T d s a b).events.filter Event.isCall
        = [.call (.read a b)] ∧
      (CriticalSectionDevice.read T d s a b).shared.busState
        = (T.read s.busState a b).1 ∧
      (CriticalSectionDevice.read T d s a b).out = (T.read s.busState a b).2.1 ∧
      (CriticalSectionDevice.read T d s a b).outcome
        = ret (T.read s.busState a b).2.2) ∧
    ((CriticalSectionDevice.write T d s a w).events.filter Event.isCall
        = [.call (.write a w)] ∧
      (CriticalSectionDevice.write T d s a w).shared.busState
        = (T.write s.busState a w).1 ∧
      (CriticalSectionDevice.write T d s a w).outcome
        = ret (T.write s.busState a w).2) ∧
    ((CriticalSectionDevice.write_read T d s a w r).events.filter Event.isCall
        = [.call (.write_read a w r)] ∧
      (CriticalSectionDevice.write_read T d s a w r).shared.busState
        = (T.write_read s.busState a w r).1 ∧
      (CriticalSectionDevice.write_read T d s a w r).out
        = (T.write_read s.busState a w r).2.1 ∧
      (CriticalSectionDevice.write_read T d s a w r).outcome
        = ret (T.write_read s.busState a w r).2.2) ∧
    ((CriticalSectionDevice.transaction T d s a ops).events.filter Event.isCall
        = [.call (.transaction a ops)] ∧
      (CriticalSectionDevice.transaction T d s a ops).shared.busState
        = (T.transaction s.busState a ops).1 ∧
      (CriticalSectionDevice.transaction T d s a ops).out
        = (T.transaction s.busState a ops).2.1 ∧
      (CriticalSectionDevice.transaction T d s a ops).outcome
        = ret (T.transaction s.busState a ops).2.2) := by
  refine ⟨⟨?_, ?_, ?_, ?_⟩, ⟨?_, ?_, ?_⟩, ⟨?_, ?_, ?_, ?_⟩, ⟨?_, ?_, ?_, ?_⟩⟩ <;>
    simp [CriticalSectionDevice.read, CriticalSectionDevice.write,
      CriticalSectionDevice.write_read, CriticalSectionDevice.transaction, h,
      Event.isCall, List.filter]

/-- Witness for C6: through the handle, the failing stub call at address
`0x50` runs exactly once and its partial effects are kept. -/
theorem single_transport_call_no_retry_witness :
    (Shared.mk (0 : Nat) false).borrowed = false ∧
    (CriticalSectionDevice.read stubBus ⟨0⟩ ⟨0, false⟩ 0x50 [0]).events.filter
        Event.isCall = [.call (.read 0x50 [0])] ∧
    (CriticalSectionDevice.read stubBus ⟨0⟩ ⟨0, false⟩ 0x50 [0]).shared.busState
        = (stubBus.read 0 0x50 [0]).1 :=
  ⟨rfl,
    (single_transport_call_no_retry stubBus ⟨0⟩ ⟨0, false⟩ 0x50 [0] [1] [0, 0] []
        rfl).1.1,
    (single_transport_call_no_retry stubBus ⟨0⟩ ⟨0, false⟩ 0x50 [0] [1] [0, 0] []
        rfl).1.2.1⟩

/-- C7: Stateless handle.  A handle consists only of its reference to
the shared container (the structure is determined by its `bus` field),
and every operation returns the handle exactly as it received it — no
operation mutates any field of the handle. -/
theorem handle_stateless {σ E : Type} (T : I2c σ E)
    (d : CriticalSectionDevice) (s : Shared σ) (a : Byte)
    (b w r : List Byte) (ops : List Operation) :
    (∀ d₀ : CriticalSectionDevice, d₀ = ⟨d₀.bus⟩) ∧
    (CriticalSectionDevice.read T d s a b).device = d ∧
    (CriticalSectionDevice.write T d s a w).device = d ∧
    (CriticalSectionDevice.write_read T d s a w r).device = d ∧
    (CriticalSectionDevice.transaction T d s a ops).device = d := by
  refine ⟨fun d₀ => rfl, ?_, ?_, ?_, ?_⟩ <;>
    · by_cases hb : s.borrowed <;>
        simp [CriticalSectionDevice.read, CriticalSectionDevice.write,
          CriticalSectionDevice.write_read, CriticalSectionDevice.transaction, hb]

/-- C8: Address opacity.  For every address in the full `u8` range the
handle's whole observable behaviour is exactly determined by what the
transport does at that address: two transports that agree there give
byte-for-byte identical operation results, and the layer adds no
address check or restriction of its own. -/
theorem address_unrestricted {σ E : Type} (T₁ T₂ : I2c σ E)
    (d : CriticalSectionDevice) (s : Shared σ) (a : Byte)
    (b w r : List Byte) (ops : List Operation) (h : s.borrowed = false)
    (h1 : T₁.read s.busState a b = T₂.read s.busState a b)
    (h2 : T₁.write s.busState a w = T₂.write s.busState a w)
    (h3 : T₁.write_read s.busState a w r = T₂.write_read s.busState a w r)
    (h4 : T₁.transaction s.busState a ops = T₂.transaction s.busState a ops) :
    CriticalSectionDevice.read T₁ d s a b = CriticalSectionDevice.read T₂ d s a b ∧
    CriticalSectionDevice.write T₁ d s a w = CriticalSectionDevice.write T₂ d s a w ∧
    CriticalSectionDevice.write_read T₁ d s a w r
      = CriticalSectionDevice.write_read T₂ d s a w r ∧
    CriticalSectionDevice.transaction T₁ d s a ops
      = CriticalSectionDevice.transaction T₂ d s a ops := by
  refine ⟨?_, ?_, ?_, ?_⟩ <;>
    simp [CriticalSectionDevice.read, CriticalSectionDevice.write,
      CriticalSectionDevice.write_read, CriticalSectionDevice.transaction, h,
      h1, h2, h3, h4]

/-- Witness for C8 at a concrete address. -/
theorem address_unrestricted_witness :
    (Shared.mk (0 : Nat) false).borrowed = false ∧
    CriticalSectionDevice.read stubBus ⟨0⟩ ⟨0, false⟩ 0x42 [0]
      = CriticalSectionDevice.read stubBus ⟨0⟩ ⟨0, false⟩ 0x42 [0] :=
  ⟨rfl, (address_unrestricted stubBus stubBus ⟨0⟩ ⟨0, false⟩ 0x42 [0] [1] [0, 0] []
      rfl rfl rfl rfl rfl).1⟩

/-- C9: Handle independence.  Dropping one handle changes nothing: the
source has no `Drop` impl and the handle holds only a shared reference,
so after dropping one handle every operation through a remaining handle
behaves exactly as before the drop. -/
theorem handle_independence {σ E : Type} (T : I2c σ E)
    (d₁ d₂ : CriticalSectionDevice) (s : Shared σ) (a : Byte)
    (b w r : List Byte) (ops : List Operation) :
    CriticalSectionDevice.dropHandle d₁ s = s ∧
    CriticalSectionDevice.read T d₂ (CriticalSectionDevice.dropHandle d₁ s) a b
      = CriticalSectionDevice.read T d₂ s a b ∧
    CriticalSectionDevice.write T d₂ (CriticalSectionDevice.dropHandle d₁ s) a w
      = CriticalSectionDevice.write T d₂ s a w ∧
    CriticalSectionDevice.write_read T d₂ (CriticalSectionDevice.dropHandle d₁ s) a w r
      = CriticalSectionDevice.write_read T d₂ s a w r ∧
    CriticalSectionDevice.transaction T d₂ (CriticalSectionDevice.dropHandle d₁ s) a ops
      = CriticalSectionDevice.transaction T d₂ s a ops :=
  ⟨rfl, rfl, rfl, rfl, rfl⟩

/-- C10: Reentrant use panics rather than corrupting state.  If an
operation runs while the container's `RefCell` is already mutably
borrowed (a reentrant call from inside another operation's critical
section on the same container), `borrow_ref_mut` panics and the
transport is never called — there are never two simultaneously live
mutable borrows of the transport. -/
theorem reentrant_borrow_panics {σ E : Type} (T : I2c σ E)
    (d : CriticalSectionDevice) (s : Shared σ) (a : Byte)
    (b w r : List Byte) (ops : List Operation) (h : s.borrowed = true) :
    ((CriticalSectionDevice.read T d s a b).outcome = panicOutcome ∧
      (CriticalSectionDevice.read T d s a b).events.filter Event.isCall = []) ∧
    ((CriticalSectionDevice.write T d s a w).outcome = panicOutcome ∧
      (CriticalSectionDevice.write T d s a w).events.filter Event.isCall = []) ∧
    ((CriticalSectionDevice.write_read T d s a w r).outcome = panicOutcome ∧
      (CriticalSectionDevice.write_read T d s a w r).events.filter Event.isCall = []) ∧
    ((CriticalSectionDevice.transaction T d s a ops).outcome = panicOutcome ∧
      (CriticalSectionDevice.transaction T d s a ops).events.filter Event.isCall = []) := by
  refine ⟨⟨?_, ?_⟩, ⟨?_, ?_⟩, ⟨?_, ?_⟩, ⟨?_, ?_⟩⟩ <;>
    simp [CriticalSectionDevice.read, CriticalSectionDevice.write,
      CriticalSectionDevice.write_read, CriticalSectionDevice.transaction, h,
      Event.isCall, List.filter]

/-- Witness for C10: with the borrow flag live, a read panics and makes
no transport call. -/
theorem reentrant_borrow_panics_witness :
    (Shared.mk (0 : Nat) true).borrowed = true ∧
    (CriticalSectionDevice.read stubBus ⟨0⟩ ⟨0, true⟩ 0x42 [0]).outcome
        = panicOutcome ∧
    (CriticalSectionDevice.read stubBus ⟨0⟩ ⟨0, true⟩ 0x42 [0]).events.filter
        Event.isCall = [] :=
  ⟨rfl, (reentrant_borrow_panics stubBus ⟨0⟩ ⟨0, true⟩ 0x42 [0] [1] [0, 0] []
      rfl).1⟩

/-! ### Concurrency: the invariant and the claims about interleavings -/

/-- The invariant holds at the start: nobody is in the critical section,
every context is idle, the empty trace is a concatenation of blocks. -/
theorem inv_start {σ : Type} (progs : List (List DevOp)) (s₀ : σ) :
    Inv (startConfig progs s₀) := by
  left
  refine ⟨rfl, ?_, CompleteBlocks.nil⟩
  intro j x hj
  simp only [startConfig, List.getElem?_map] at hj
  rcases Option.map_eq_some'.mp hj with ⟨p, _, hpx⟩
  cases hpx
  rfl

/-- The invariant is preserved by every step of the interleaving
semantics. -/
theorem inv_step {σ E : Type} (T : I2c σ E) {c c' : Config σ}
    (hinv : Inv c) (hs : Step T c c') : Inv c' := by
  unfold Inv at hinv ⊢
  cases hs with
  | enter i op rest hh hc =>
      rcases hinv with ⟨_, hidle, hblocks⟩ | ⟨i', ctx, hh', _⟩
      · right
        have hlen : i < c.ctxs.length := (List.getElem?_eq_some.mp hc).1
        refine ⟨i, ⟨op :: rest, .inCS⟩, rfl, List.getElem?_set_self hlen, ?_, ?_⟩
        · intro j x hj hxj
          rw [List.getElem?_set_ne (Ne.symm hj)] at hxj
          exact hidle j x hxj
        · exact Or.inl ⟨rfl, c.trace, hblocks, rfl⟩
      · rw [hh] at hh'
        exact Option.noConfusion hh'
  | call i op rest hh hc =>
      rcases hinv with ⟨hnone, _, _⟩ | ⟨i', ctx, hh', hctx, hothers, hph⟩
      · rw [hnone] at hh
        exact Option.noConfusion hh
      · have hii : i' = i := by
          rw [hh] at hh'
          exact (Option.some.inj hh').symm
        subst hii
        have hctx' : ctx = ⟨op :: rest, .inCS⟩ := by
          rw [hctx] at hc
          exact Option.some.inj hc
        subst hctx'
        rcases hph with ⟨_, tr, hbl, htr⟩ | ⟨hph', _⟩
        · right
          have hlen : i' < c.ctxs.length := (List.getElem?_eq_some.mp hc).1
          refine ⟨i', ⟨op :: rest, .called⟩, rfl, List.getElem?_set_self hlen, ?_, ?_⟩
          · intro j x hj hxj
            rw [List.getElem?_set_ne (Ne.symm hj)] at hxj
            exact hothers j x hj hxj
          · refine Or.inr ⟨rfl, tr, op.desc, hbl, ?_⟩
            rw [htr]
            simp
        · exact Phase.noConfusion hph'
  | leave i op rest hh hc =>
      rcases hinv with ⟨hnone, _, _⟩ | ⟨i', ctx, hh', hctx, hothers, hph⟩
      · rw [hnone] at hh
        exact Option.noConfusion hh
      · have hii : i' = i := by
          rw [hh] at hh'
          exact (Option.some.inj hh').symm
        subst hii
        have hctx' : ctx = ⟨op :: rest, .called⟩ := by
          rw [hctx] at hc
          exact Option.some.inj hc
        subst hctx'
        rcases hph with ⟨hph', _⟩ | ⟨_, tr, d, hbl, htr⟩
        · exact Phase.noConfusion hph'
        · left
          refine ⟨rfl, ?_, ?_⟩
          · intro j x hj
            by_cases hji : j = i'
            · subst hji
              have hlen : j < c.ctxs.length := (List.getElem?_eq_some.mp hc).1
              rw [List.getElem?_set_self hlen] at hj
              cases Option.some.inj hj
              rfl
            · rw [List.getElem?_set_ne (Ne.symm hji)] at hj
              exact hothers j x hji hj
          · rw [htr]
            have hassoc :
                tr ++ [(i', Event.csEnter), (i', Event.call d)] ++ [(i', Event.csExit)]
                  = tr ++ [(i', Event.csEnter), (i', Event.call d), (i', Event.csExit)] := by
              simp
            rw [hassoc]
            exact CompleteBlocks.block tr i' d hbl

/-- The invariant holds in every configuration reachable from a
configuration satisfying it. -/
theorem inv_reachable {σ E : Type} (T : I2c σ E) {c₀ c : Config σ}
    (h0 : Inv c₀) (h : Reachable T c₀ c) : Inv c := by
  induction h with
  | refl => exact h0
  | tail _ hstep ih => exact inv_step T ih hstep

/-- C2: Mutual exclusion.  In every configuration reachable by any
interleaving of any number of contexts (threads or interrupt handlers)
running device operations against one shared container, the transport
trace is a concatenation of complete single-operation blocks — each a
critical-section entry, the forwarded transport call and the exit, all
by one context — followed by at most the open block of the single
operation in progress: no two operations ever overlap at the bus
level. -/
theorem ops_never_interleave {σ E : Type} (T : I2c σ E)
    (progs : List (List DevOp)) (s₀ : σ) (c : Config σ)
    (h : Reachable T (startConfig progs s₀) c) : WellBlocked c.trace := by
  have hinv := inv_reachable T (inv_start progs s₀) h
  rcases hinv with ⟨_, _, hblocks⟩ | ⟨i, ctx, _, _, _, hph⟩
  · exact ⟨c.trace, [], by simp, hblocks, Or.inl rfl⟩
  · rcases hph with ⟨_, tr, hb, htr⟩ | ⟨_, tr, d, hb, htr⟩
    · exact ⟨tr, [(i, .csEnter)], htr, hb, Or.inr (Or.inl ⟨i, rfl⟩)⟩
    · exact ⟨tr, [(i, .csEnter), (i, .call d)], htr, hb,
        Or.inr (Or.inr ⟨i, d, rfl⟩)⟩

/-- C3: Critical-section extent.  At every step of the interleaving
semantics: a forwarded transport call is made only by the context that
currently holds the critical section; the critical section is exited
only after that context's transport call has returned; and the
transport state never changes while nobody holds the critical
section. -/
theorem transport_call_inside_cs {σ E : Type} (T : I2c σ E)
    (c c' : Config σ) (hs : Step T c c') :
    (∀ (i : Nat) (d : CallDesc),
        c'.trace = c.trace ++ [(i, Event.call d)] → c.holder = some i) ∧
    (∀ i : Nat, c'.trace = c.trace ++ [(i, Event.csExit)] →
        ∃ ctx : CtxState, c.ctxs[i]? = some ctx ∧ ctx.phase = .called) ∧
    (c'.busState ≠ c.busState → c.holder ≠ none) := by
  cases hs with
  | enter i op rest hh hc =>
      refine ⟨?_, ?_, ?_⟩
      · intro j d htr
        have h2 := List.append_cancel_left htr
        simp at h2
      · intro j htr
        have h2 := List.append_cancel_left htr
        simp at h2
      · intro hb
        exact absurd rfl hb
  | call i op rest hh hc =>
      refine ⟨?_, ?_, ?_⟩
      · intro j d htr
        have h2 := List.append_cancel_left htr
        simp at h2
        rw [hh, h2.1]
      · intro j htr
        have h2 := List.append_cancel_left htr
        simp at h2
      · intro _
        rw [hh]
        simp
  | leave i op rest hh hc =>
      refine ⟨?_, ?_, ?_⟩
      · intro j d htr
        have h2 := List.append_cancel_left htr
        simp at h2
      · intro j htr
        have h2 := List.append_cancel_left htr
        simp at h2
        subst h2
        exact ⟨⟨op :: rest, .called⟩, hc, rfl⟩
      · intro hb
        exact absurd rfl hb

/-! ### A concrete three-step run used to instantiate C2 and C3 -/

/-- The demo device operation: a read of one byte at address `0x50`. -/
def demoOp : DevOp := .read 0x50 [0]

/-- The start configuration of the demo run: one context, one
operation. -/
def demoC0 : Config Nat := startConfig [[demoOp]] 0

/-- The demo run after the context entered the critical section. -/
def demoC1 : Config Nat :=
  { ctxs := demoC0.ctxs.set 0 ⟨[demoOp], .inCS⟩, holder := some 0,
    busState := demoC0.busState, trace := demoC0.trace ++ [(0, .csEnter)] }

/-- The demo run after the forwarded transport call. -/
def demoC2 : Config Nat :=
  { ctxs := demoC1.ctxs.set 0 ⟨[demoOp], .called⟩, holder := some 0,
    busState := demoOp.run stubBus demoC1.busState,
    trace := demoC1.trace ++ [(0, .call demoOp.desc)] }

/-- The demo run after the context left the critical section. -/
def demoC3 : Config Nat :=
  { ctxs := demoC2.ctxs.set 0 ⟨[], .idle⟩, holder := none,
    busState := demoC2.busState, trace := demoC2.trace ++ [(0, .csExit)] }

/-- Witness for C2: a full one-operation run produces exactly one
complete block. -/
theorem ops_never_interleave_witness :
    WellBlocked [((0 : Nat), Event.csEnter),
                 (0, Event.call (CallDesc.read 0x50 [0])),
                 (0, Event.csExit)] :=
  ops_never_interleave stubBus [[demoOp]] 0 demoC3
    (Relation.ReflTransGen.tail
      (Relation.ReflTransGen.tail
        (Relation.ReflTransGen.single (Step.enter demoC0 0 demoOp [] rfl rfl))
        (Step.call demoC1 0 demoOp [] rfl rfl))
      (Step.leave demoC2 0 demoOp [] rfl rfl))

/-- Witness for C3 at the demo run's call and exit steps. -/
theorem transport_call_inside_cs_witness :
    demoC1.holder = some 0 ∧ demoC1.holder ≠ none ∧
    (∃ ctx : CtxState, demoC2.ctxs[0]? = some ctx ∧ ctx.phase = Phase.called) :=
  ⟨(transport_call_inside_cs stubBus demoC1 demoC2
      (Step.call demoC1 0 demoOp [] rfl rfl)).1 0 (CallDesc.read 0x50 [0]) rfl,
   (transport_call_inside_cs stubBus demoC1 demoC2
      (Step.call demoC1 0 demoOp [] rfl rfl)).2.2 (by decide),
   (transport_call_inside_cs stubBus demoC2 demoC3
      (Step.leave demoC2 0 demoOp [] rfl rfl)).2.1 0 rfl⟩

end EmbeddedHalBus
